import Mathlib

/-!
Shallow embedding of the Domain-Status-Checker repository
(src/domainStatus.py and src/domain_status_info.py).

Strings of the Python program are modelled as lists of characters
(`Str`), so that the character-set semantics of `str.lstrip` can be
stated faithfully.  Network interactions (the HEAD probe, the fallback
GET, DNS resolution, the whois call) are external effects; they are
modelled as oracles collected in a `NetEnv`, each oracle returning the
outcome the Python code distinguishes with its `except` clauses.
-/

/-- Python strings, modelled as lists of characters. -/
abbrev Str := List Char

/-- Model of Python `s.startswith(p)`: first argument the string, second the pattern. -/
def startsWith : Str → Str → Bool
  | _, [] => true
  | [], _ :: _ => false
  | c :: s, p :: ps => c == p && startsWith s ps

/-- Model of Python `p in s` (substring containment). -/
def hasSub : Str → Str → Bool
  | [], p => startsWith [] p
  | c :: s, p => startsWith (c :: s) p || hasSub s p

/-- Character set of Python `lstrip('https://')`: the distinct characters
of the cutset string. -/
def inStripSet (c : Char) : Bool :=
  c == 'h' || c == 't' || c == 'p' || c == 's' || c == ':' || c == '/'

/-- Model of Python `host.lstrip('https://')`: remove leading characters
belonging to the cutset until a character outside it is met. -/
def lstripChars : Str → Str
  | [] => []
  | c :: s => if inStripSet c then lstripChars s else c :: s

/-- Embedding of `DomainStatus.left_strip_url` (src/domainStatus.py lines
92-97, identical in src/domain_status_info.py lines 103-108):
if the host starts with `http://www.` or `https://www.` it is
`lstrip`-ped by the character set of `https://`, otherwise returned
unchanged. -/
def left_strip_url (host : Str) : Str :=
  if startsWith host "http://www.".data || startsWith host "https://www.".data then
    lstripChars host
  else host

/-- Fixed timeout constant `TIMEOUT = 5` (seconds), src/domainStatus.py line 58. -/
def TIMEOUT : Nat := 5

/-- The string built by `'timed out (%i ms)' % (TIMEOUT * 1000)`. -/
def timedOutMsg : Str :=
  "timed out (".data ++ (Nat.repr (TIMEOUT * 1000)).data ++ " ms)".data

/-- The string built by `'%i -- %s' % (code, reason)`. -/
def fmtStatus (code : Nat) (reason : Str) : Str :=
  (Nat.repr code).data ++ " -- ".data ++ reason

/-- Outcome of the light probe, i.e. of `conn.request("HEAD", ...)` followed by
`conn.getresponse()`: a response with status and reason, a raised
`socket.timeout`, or any other raised exception (carrying its message). -/
inductive LightOutcome where
  | response (status : Nat) (reason : Str)
  | timeout
  | exn (msg : Str)
deriving DecidableEq

/-- Outcome of the fallback request `urllib2.urlopen(...)`, matching the
`except` ladder in `status_code_helper`: success with a code from `getcode()`,
an `HTTPError` with code and reason, a `URLError` with a reason, a raised
`socket.timeout`, or any other exception. -/
inductive FallbackOutcome where
  | success (code : Nat)
  | httpError (code : Nat) (reason : Str)
  | urlError (reason : Str)
  | timeout
  | exn (msg : Str)
deriving DecidableEq

/-- Value of a field of the whois result (`w.registrar` / `w.referral_url`):
the code only distinguishes the empty list from any other value. -/
inductive RegField where
  | emptyList
  | val (s : Str)
deriving DecidableEq

/-- Outcome of the external `pythonwhois.whois(host)` call: a result with the
two fields the code reads, or a raised exception. -/
inductive RegOutcome where
  | ok (registrar referral : RegField)
  | raise (msg : Str)
deriving DecidableEq

/-- The network environment: one oracle per external effect.  `head` is keyed
by the host the connection is opened to, `get` by the URL passed to
`urllib2.urlopen`, `resolve` by the host given to `socket.gethostbyname`
(`none` modelling a raised `socket.gaierror`), `whois` by the host given to
the whois library. -/
structure NetEnv where
  head : Str → LightOutcome
  get : Str → FallbackOutcome
  resolve : Str → Option Str
  whois : Str → RegOutcome

/-- A value assigned to the `status` variable of the Python code: a string, a
plain integer code (a non-200 `getcode()` result is kept as an int), a
`URLError.reason` object, or a caught exception object. -/
inductive PResult where
  | str (s : Str)
  | code (n : Nat)
  | reasonVal (r : Str)
  | exn (m : Str)
deriving DecidableEq

/-- URL building of `DomainStatus.status_code_helper` (src/domainStatus.py
lines 149-153, identical in src/domain_status_info.py lines 156-160),
including the original condition
`if not (host.startswith(http://www.)) or (host.startswith(https://www.))`
in which `not` binds only the first test. -/
def fallback_url (host : Str) : Str :=
  if !startsWith host "http://www.".data || startsWith host "https://www.".data then
    if startsWith host "www.".data then "http://".data ++ host
    else "http://www.".data ++ host
  else host

/-- Embedding of `DomainStatus.status_code_helper` (src/domainStatus.py lines
139-168): builds the fallback URL, performs the single fallback request, and
classifies its outcome by the `except` ladder. -/
def status_code_helper (host : Str) (get : Str → FallbackOutcome) : PResult :=
  match get (fallback_url host) with
  | .success c => if c = 200 then .str "200 -- OK".data else .code c
  | .httpError c r => .str (fmtStatus c r)
  | .urlError r => .reasonVal r
  | .timeout => .str timedOutMsg
  | .exn m => .exn m

/-- Instrumented result of `get_status_code`: the returned value, how many
fallback requests were issued, and whether `conn.close()` was executed
before returning. -/
structure ProbeTrace where
  result : PResult
  fallbackCalls : Nat
  connClosed : Bool
deriving DecidableEq

/-- Embedding of `DomainStatus.get_status_code` (src/domainStatus.py lines
112-137).  The `socket.timeout` handler returns directly, skipping the
`conn.close()` that the other paths reach; a status of 400 or 403 routes the
result through `status_code_helper` on the stripped host. -/
def get_status_code (host : Str) (env : NetEnv) : ProbeTrace :=
  match env.head (left_strip_url host) with
  | .timeout => ⟨.str timedOutMsg, 0, false⟩
  | .exn m => ⟨.exn m, 0, true⟩
  | .response st reason =>
      if st = 400 ∨ st = 403 then
        ⟨status_code_helper (left_strip_url host) env.get, 1, true⟩
      else
        ⟨.str (fmtStatus st reason), 0, true⟩

/-- Embedding of `DomainStatus.get_IP` (src/domainStatus.py lines 99-110):
resolve the stripped host, degrading a `socket.gaierror` to the string
`N/A`. -/
def get_IP (host : Str) (env : NetEnv) : Str :=
  match env.resolve (left_strip_url host) with
  | some ip => ip
  | none => "N/A".data

/-- The list comprehension replacing an empty-list whois field by `N/A`. -/
def toNA : RegField → Str
  | .emptyList => "N/A".data
  | .val s => s

/-- Embedding of `DomainStatus.get_domain_name_registrar` of
src/domainStatus.py lines 170-180: any exception from the whois call
degrades to the pair `(N/A, N/A)`. -/
def get_domain_name_registrar : RegOutcome → Str × Str
  | .ok r f => (toNA r, toNA f)
  | .raise _ => ("N/A".data, "N/A".data)

/-- Embedding of `DomainStatus.get_domain_name_registrar` of
src/domain_status_info.py lines 177-184: when the whois library is absent the
function returns `None`; otherwise the whois call is NOT guarded, so a raised
exception propagates to the caller (modelled by `Except.error`). -/
def get_domain_name_registrar_info (whoisAvail : Bool) (call : RegOutcome) :
    Except Str (Option (Str × Str)) :=
  if whoisAvail then
    match call with
    | .raise m => .error m
    | .ok r f => .ok (some (toNA r, toNA f))
  else .ok none

/-- The `parse_length` argument of `add_status_to_html`: the default `0`
(whole file), a list of two integers, or any other value. -/
inductive ParseLength where
  | whole
  | range (a b : Int)
  | invalid
deriving DecidableEq

/-- An error aborting a batch run: the explicit `InvalidArgument`, an
`IndexError` escaping the slicing comprehension, or any uncaught exception
propagating out of the per-domain loop. -/
inductive BatchError where
  | invalidArgument
  | indexError
  | uncaught (msg : Str)
deriving DecidableEq

/-- Model of Python list indexing `xs[i]` with negative-index support,
`none` modelling a raised `IndexError`. -/
def pyGet (xs : List Str) (i : Int) : Option Str :=
  let j := if i < 0 then i + (xs.length : Int) else i
  if 0 ≤ j then xs[j.toNat]? else none

/-- Model of Python `range(a, b)`. -/
def pyRange (a b : Int) : List Int :=
  (List.range (b - a).toNat).map (fun k => a + (k : Int))

/-- The selection of `url_list` in `add_status_to_html` (src/domainStatus.py
lines 194-200): the whole feed for `0`, the comprehension
`[feed_list[i] for i in range(start - 1, end)]` for a two-integer list, and
`InvalidArgument` otherwise. -/
def selectUrls (feed : List Str) : ParseLength → Except BatchError (List Str)
  | .whole => .ok feed
  | .range a b =>
      match (pyRange (a - 1) b).mapM (pyGet feed) with
      | some urls => .ok urls
      | none => .error .indexError
  | .invalid => .error .invalidArgument

/-- Model of Python `xs.index(u)`: 0-based position of the first occurrence
(the code only calls it on elements of the list). -/
def pyIndexOf (xs : List Str) (u : Str) : Nat :=
  match xs with
  | [] => 0
  | x :: t => if x == u then 0 else pyIndexOf t u + 1

/-- One table row written by `add_status_to_html`: the running number, the
stripped host, the IP string, the status value and the optional registrar
pair. -/
structure Row where
  nr : Nat
  host : Str
  ip : Str
  status : PResult
  registrar : Option (Str × Str)
deriving DecidableEq

/-- One console progress line printed by `add_status_to_html`:
`url ** status ** line (feed_list.index(url) + 1)`. -/
structure PrintLine where
  url : Str
  status : PResult
  line : Nat
deriving DecidableEq

/-- The per-domain loop of `add_status_to_html` (src/domainStatus.py lines
202-221): for each url probe, resolve, optionally look up the registrar
(exceptions degraded inside `get_domain_name_registrar`), emit one row with
the running `row_nr` and one progress line numbered by the first occurrence
of the url in the whole feed. -/
def processUrls (feed : List Str) (reg : Bool) (env : NetEnv) :
    Nat → List Str → List Row × List PrintLine
  | _, [] => ([], [])
  | n, url :: rest =>
      let tr := get_status_code url env
      let rv : Option (Str × Str) :=
        if reg then some (get_domain_name_registrar (env.whois url)) else none
      let next := processUrls feed reg env (n + 1) rest
      (⟨n, left_strip_url url, get_IP url env, tr.result, rv⟩ :: next.1,
       ⟨url, tr.result, pyIndexOf feed url + 1⟩ :: next.2)

/-- Embedding of `DomainStatus.add_status_to_html` of src/domainStatus.py
lines 182-225: select the url list (raising for malformed `parse_length`),
then run the loop starting at `row_nr = 1`. -/
def add_status_to_html (feed : List Str) (pl : ParseLength) (reg : Bool)
    (env : NetEnv) : Except BatchError (List Row × List PrintLine) :=
  match selectUrls feed pl with
  | .error e => .error e
  | .ok urls => .ok (processUrls feed reg env 1 urls)

/-- The per-domain loop of `add_status_to_html` of src/domain_status_info.py
lines 207-226: same shape, except that the registrar step (guarded by
`name_registrar and WHOIS`) calls the unguarded
`get_domain_name_registrar_info`, whose exception propagates and aborts the
loop. -/
def processUrlsInfo (feed : List Str) (reg whoisAvail : Bool) (env : NetEnv) :
    Nat → List Str → Except BatchError (List Row × List PrintLine)
  | _, [] => .ok ([], [])
  | n, url :: rest =>
      let tr := get_status_code url env
      let regStep : Except BatchError (Option (Str × Str)) :=
        if reg && whoisAvail then
          match get_domain_name_registrar_info whoisAvail (env.whois url) with
          | .error m => .error (.uncaught m)
          | .ok v => .ok v
        else .ok none
      match regStep with
      | .error e => .error e
      | .ok rv =>
          match processUrlsInfo feed reg whoisAvail env (n + 1) rest with
          | .error e => .error e
          | .ok (rows, prints) =>
              .ok (⟨n, left_strip_url url, get_IP url env, tr.result, rv⟩ :: rows,
                   ⟨url, tr.result, pyIndexOf feed url + 1⟩ :: prints)

/-- Embedding of `DomainStatus.add_status_to_html` of
src/domain_status_info.py lines 186-230. -/
def add_status_to_html_info (feed : List Str) (pl : ParseLength)
    (reg whoisAvail : Bool) (env : NetEnv) :
    Except BatchError (List Row × List PrintLine) :=
  match selectUrls feed pl with
  | .error e => .error e
  | .ok urls => processUrlsInfo feed reg whoisAvail env 1 urls

/-- A network environment in which every host answers 200 OK, nothing
resolves and every whois call raises. -/
def env0 : NetEnv :=
  ⟨fun _ => .response 200 "OK".data, fun _ => .success 200,
   fun _ => none, fun _ => .raise "lookup failed".data⟩

/-- A network environment in which every connection times out. -/
def envTO : NetEnv :=
  ⟨fun _ => .timeout, fun _ => .timeout, fun _ => none,
   fun _ => .raise "lookup failed".data⟩

/-- A network environment whose whois oracle raises for every host while the
probes succeed. -/
def envBoom : NetEnv :=
  ⟨fun _ => .response 200 "OK".data, fun _ => .success 200,
   fun _ => none, fun _ => .raise "whois boom".data⟩

/-- A five-line input file. -/
def demo5 : List Str :=
  ["one.com".data, "two.com".data, "three.com".data, "four.com".data,
   "five.com".data]

/-- An input file in which the same domain occurs on lines 1 and 3. -/
def dupFeed : List Str := ["a.com".data, "b.com".data, "a.com".data]

/-- A two-line input file. -/
def pairFeed : List Str := ["a.com".data, "b.com".data]

/-- A network environment whose light probe answers 403 and whose fallback
request succeeds with 200. -/
def envW : NetEnv :=
  ⟨fun _ => .response 403 "Forbidden".data, fun _ => .success 200,
   fun _ => none, fun _ => .raise "lookup failed".data⟩

/-! ### Helper lemmas on the string model -/

theorem startsWith_nil (s : Str) : startsWith s [] = true := by
  cases s <;> rfl

theorem startsWith_iff (p : Str) : ∀ s : Str,
    startsWith s p = true ↔ ∃ t, s = p ++ t := by
  induction p with
  | nil =>
      intro s
      simp [startsWith_nil]
  | cons c ps ih =>
      intro s
      cases s with
      | nil =>
          constructor
          · intro h
            simp [startsWith] at h
          · rintro ⟨t, ht⟩
            simp at ht
      | cons a as =>
          show (a == c && startsWith as ps) = true ↔ _
          simp only [Bool.and_eq_true, beq_iff_eq, ih, List.cons_append]
          constructor
          · rintro ⟨rfl, t, rfl⟩
            exact ⟨t, rfl⟩
          · rintro ⟨t, ht⟩
            injection ht with h1 h2
            exact ⟨h1, t, h2⟩

theorem startsWith_self_append (p t : Str) : startsWith (p ++ t) p = true :=
  (startsWith_iff p (p ++ t)).mpr ⟨t, rfl⟩

theorem lstrip_http_www (r : Str) :
    lstripChars ("http://www.".data ++ r) = "www.".data ++ r := rfl

theorem lstrip_https_www (r : Str) :
    lstripChars ("https://www.".data ++ r) = "www.".data ++ r := rfl

theorem www_not_http (t : Str) :
    startsWith ("www.".data ++ t) "http://www.".data = false := rfl

theorem www_not_https (t : Str) :
    startsWith ("www.".data ++ t) "https://www.".data = false := rfl

theorem hasSub_http_www (t : Str) :
    hasSub ("http://www.".data ++ t) "://".data = true := rfl

theorem hasSub_https_www (t : Str) :
    hasSub ("https://www.".data ++ t) "://".data = true := rfl

theorem hasSub_www (b : Str) :
    hasSub ("www.".data ++ b) "://".data = hasSub b "://".data := rfl

theorem left_strip_url_http (r : Str) :
    left_strip_url ("http://www.".data ++ r) = "www.".data ++ r := by
  have h : (startsWith ("http://www.".data ++ r) "http://www.".data ||
      startsWith ("http://www.".data ++ r) "https://www.".data) = true := by
    rw [startsWith_self_append, Bool.true_or]
  unfold left_strip_url
  rw [h]
  exact lstrip_http_www r

theorem left_strip_url_https (r : Str) :
    left_strip_url ("https://www.".data ++ r) = "www.".data ++ r := by
  have h : (startsWith ("https://www.".data ++ r) "http://www.".data ||
      startsWith ("https://www.".data ++ r) "https://www.".data) = true := by
    rw [startsWith_self_append, Bool.or_true]
  unfold left_strip_url
  rw [h]
  exact lstrip_https_www r

theorem left_strip_url_other (e : Str)
    (h1 : startsWith e "http://www.".data = false)
    (h2 : startsWith e "https://www.".data = false) :
    left_strip_url e = e := by
  simp [left_strip_url, h1, h2]

theorem canonical_no_scheme (e : Str) :
    startsWith (left_strip_url e) "http://www.".data = false ∧
    startsWith (left_strip_url e) "https://www.".data = false := by
  cases h1 : startsWith e "http://www.".data with
  | true =>
      obtain ⟨t, rfl⟩ := (startsWith_iff _ e).mp h1
      rw [left_strip_url_http]
      exact ⟨www_not_http t, www_not_https t⟩
  | false =>
      cases h2 : startsWith e "https://www.".data with
      | true =>
          obtain ⟨t, rfl⟩ := (startsWith_iff _ e).mp h2
          rw [left_strip_url_https]
          exact ⟨www_not_http t, www_not_https t⟩
      | false =>
          rw [left_strip_url_other e h1 h2]
          exact ⟨h1, h2⟩

theorem processUrls_fst_length (feed : List Str) (reg : Bool) (env : NetEnv) :
    ∀ (urls : List Str) (n : Nat),
      ((processUrls feed reg env n urls).1).length = urls.length := by
  intro urls
  induction urls with
  | nil => intro n; rfl
  | cons u rest ih =>
      intro n
      simp [processUrls, ih (n + 1)]

theorem processUrls_snd_length (feed : List Str) (reg : Bool) (env : NetEnv) :
    ∀ (urls : List Str) (n : Nat),
      ((processUrls feed reg env n urls).2).length = urls.length := by
  intro urls
  induction urls with
  | nil => intro n; rfl
  | cons u rest ih =>
      intro n
      simp [processUrls, ih (n + 1)]

theorem processUrls_map_nr (feed : List Str) (reg : Bool) (env : NetEnv) :
    ∀ (urls : List Str) (n : Nat),
      ((processUrls feed reg env n urls).1).map Row.nr =
        List.range' n urls.length := by
  intro urls
  induction urls with
  | nil => intro n; rfl
  | cons u rest ih =>
      intro n
      simp [processUrls, ih (n + 1), List.range'_succ]

theorem processUrls_registrar (feed : List Str) (reg : Bool) (env : NetEnv) :
    ∀ (urls : List Str) (n k : Nat),
      (((processUrls feed reg env n urls).1)[k]?).map Row.registrar =
        (urls[k]?).map (fun u =>
          if reg then some (get_domain_name_registrar (env.whois u)) else none) := by
  intro urls
  induction urls with
  | nil => intro n k; rfl
  | cons u rest ih =>
      intro n k
      cases k with
      | zero => simp [processUrls]
      | succ m =>
          simpa [processUrls] using ih (n + 1) m

theorem processUrls_line (feed : List Str) (reg : Bool) (env : NetEnv) :
    ∀ (urls : List Str) (n k : Nat),
      (((processUrls feed reg env n urls).2)[k]?).map PrintLine.line =
        (urls[k]?).map (fun u => pyIndexOf feed u + 1) := by
  intro urls
  induction urls with
  | nil => intro n k; rfl
  | cons u rest ih =>
      intro n k
      cases k with
      | zero => simp [processUrls]
      | succ m =>
          simpa [processUrls] using ih (n + 1) m

theorem add_status_ok (feed : List Str) (pl : ParseLength) (reg : Bool)
    (env : NetEnv) (urls : List Str) (h : selectUrls feed pl = .ok urls) :
    add_status_to_html feed pl reg env = .ok (processUrls feed reg env 1 urls) := by
  unfold add_status_to_html
  rw [h]

theorem selectUrls_reversed (feed : List Str) (a b : Int) (h : b < a) :
    selectUrls feed (.range a b) = .ok [] := by
  have h0 : (b - (a - 1)).toNat = 0 := by omega
  have hr : pyRange (a - 1) b = [] := by
    unfold pyRange
    rw [h0]
    rfl
  show (match (pyRange (a - 1) b).mapM (pyGet feed) with
        | some urls => Except.ok urls
        | none => Except.error BatchError.indexError) = _
  rw [hr]
  rfl

theorem get_status_code_timeout (host : Str) (env : NetEnv)
    (h : env.head (left_strip_url host) = .timeout) :
    get_status_code host env = ⟨.str timedOutMsg, 0, false⟩ := by
  unfold get_status_code
  rw [h]

theorem get_status_code_exn (host : Str) (env : NetEnv) (m : Str)
    (h : env.head (left_strip_url host) = .exn m) :
    get_status_code host env = ⟨.exn m, 0, true⟩ := by
  unfold get_status_code
  rw [h]

theorem get_status_code_response (host : Str) (env : NetEnv) (st : Nat) (r : Str)
    (h : env.head (left_strip_url host) = .response st r) :
    get_status_code host env =
      if st = 400 ∨ st = 403 then
        ⟨status_code_helper (left_strip_url host) env.get, 1, true⟩
      else ⟨.str (fmtStatus st r), 0, true⟩ := by
  unfold get_status_code
  rw [h]

/-! ### Claim theorems -/

/-- C1: when the light HEAD probe answers with status 400 or 403, the prober
performs exactly one fallback request, and the recorded result is the outcome
of the fallback request (whatever it is: status line, its own timeout, or its
own error) computed by `status_code_helper` - never the original 400/403
response of the light probe. -/
theorem c1_ambiguous_status_single_fallback (host : Str) (env : NetEnv)
    (st : Nat) (r : Str)
    (hresp : env.head (left_strip_url host) = .response st r)
    (hst : st = 400 ∨ st = 403) :
    (get_status_code host env).result =
      status_code_helper (left_strip_url host) env.get ∧
    (get_status_code host env).fallbackCalls = 1 := by
  rw [get_status_code_response host env st r hresp, if_pos hst]
  exact ⟨rfl, rfl⟩

/-- Witness for C1: a light 403 answer with a fallback that succeeds with
status 200. -/
theorem c1_witness :
    (get_status_code "example.com".data envW).result =
      status_code_helper (left_strip_url "example.com".data) envW.get ∧
    (get_status_code "example.com".data envW).fallbackCalls = 1 :=
  c1_ambiguous_status_single_fallback "example.com".data envW 403
    "Forbidden".data rfl (Or.inr rfl)

/-- C2: a timeout of the light probe is returned immediately as the string
`timed out (5000 ms)` with no fallback request performed, and a timeout of
the fallback request yields the same fixed string as its own outcome. -/
theorem c2_timeout_immediate (host : Str) (env : NetEnv) :
    (env.head (left_strip_url host) = .timeout →
      (get_status_code host env).result = .str "timed out (5000 ms)".data ∧
      (get_status_code host env).fallbackCalls = 0) ∧
    (∀ h2 : Str, env.get (fallback_url h2) = .timeout →
      status_code_helper h2 env.get = .str "timed out (5000 ms)".data) := by
  constructor
  · intro hto
    rw [get_status_code_timeout host env hto]
    exact ⟨rfl, rfl⟩
  · intro h2 hto
    unfold status_code_helper
    rw [hto]
    rfl

/-- Witness for C2: an environment in which every connection times out. -/
theorem c2_witness :
    (get_status_code "example.com".data envTO).result =
      .str "timed out (5000 ms)".data ∧
    (get_status_code "example.com".data envTO).fallbackCalls = 0 :=
  (c2_timeout_immediate "example.com".data envTO).1 rfl

/-- C3: for every canonical host (an output of `left_strip_url`), the
fallback URL prefixes `http://` when the host already begins with `www.` and
`http://www.` otherwise; canonical hosts never carry an `http://www.` or
`https://www.` form. -/
theorem c3_fallback_url_building (e : Str) :
    startsWith (left_strip_url e) "http://www.".data = false ∧
    startsWith (left_strip_url e) "https://www.".data = false ∧
    fallback_url (left_strip_url e) =
      (if startsWith (left_strip_url e) "www.".data then
        "http://".data ++ left_strip_url e
      else "http://www.".data ++ left_strip_url e) := by
  obtain ⟨h1, h2⟩ := canonical_no_scheme e
  refine ⟨h1, h2, ?_⟩
  unfold fallback_url
  rw [h1]
  rfl

/-- C4 counterexample: the reversed range `[5, 2]` over a five-line file is
NOT rejected: `range(4, 2)` is empty, so the run succeeds with zero rows and
zero progress lines (and without consulting the network), instead of raising
the `InvalidArgument` configuration error the claim asserts. -/
theorem c4_reversed_range_not_rejected :
    add_status_to_html demo5 (.range 5 2) false env0 = .ok ([], []) := by rfl

/-- C4 amended: a reversed line range (start greater than end) is not
rejected; the slice is empty and the run completes with zero reports and no
probe, for every feed and every network environment; the distinct
configuration error is raised only when `parse_length` is neither `0` nor a
two-integer list. -/
theorem c4_amended_reversed_range_empty (feed : List Str) (a b : Int)
    (reg : Bool) (env : NetEnv) (h : b < a) :
    add_status_to_html feed (.range a b) reg env = .ok ([], []) ∧
    add_status_to_html feed .invalid reg env = .error .invalidArgument := by
  constructor
  · rw [add_status_ok feed (.range a b) reg env []
      (selectUrls_reversed feed a b h)]
    rfl
  · rfl

/-- Witness for C4 amended: the reversed range `[7, 3]`. -/
theorem c4_witness :
    add_status_to_html pairFeed (.range 7 3) true envBoom = .ok ([], []) ∧
    add_status_to_html pairFeed .invalid true envBoom =
      .error .invalidArgument :=
  c4_amended_reversed_range_empty pairFeed 7 3 true envBoom (by decide)

/-- C5 counterexample: in src/domain_status_info.py a raised whois exception
is not caught by `get_domain_name_registrar`, so with the registrar feature
enabled the first domain whose lookup raises aborts the whole batch (the
second domain of the feed is never reported), contradicting the claim that a
failed registrar lookup degrades to `N/A` for that domain only. -/
theorem c5_info_registrar_failure_aborts :
    add_status_to_html_info pairFeed .whole true true envBoom =
      .error (.uncaught "whois boom".data) := by rfl

/-- C5 amended: in src/domainStatus.py the claim holds: whenever slicing
succeeds the batch run of `add_status_to_html` always completes with one row
per selected domain, whatever the probe, resolution and registrar outcomes
are, and an exception inside the whois lookup degrades to the pair
`(N/A, N/A)` carried in that row; only the version in
src/domain_status_info.py lets a registrar exception abort the batch. -/
theorem c5_amended_batch_recovers (feed : List Str) (pl : ParseLength)
    (reg : Bool) (env : NetEnv) (urls : List Str)
    (hsel : selectUrls feed pl = .ok urls) :
    (∃ rows prints, add_status_to_html feed pl reg env = .ok (rows, prints) ∧
      rows.length = urls.length ∧
      ∀ k : Nat, (rows[k]?).map Row.registrar =
        (urls[k]?).map (fun u =>
          if reg then some (get_domain_name_registrar (env.whois u))
          else none)) ∧
    (∀ m : Str, get_domain_name_registrar (.raise m) =
      ("N/A".data, "N/A".data)) := by
  refine ⟨⟨(processUrls feed reg env 1 urls).1,
    (processUrls feed reg env 1 urls).2,
    add_status_ok feed pl reg env urls hsel,
    processUrls_fst_length feed reg env urls 1,
    fun k => processUrls_registrar feed reg env urls 1 k⟩, fun m => rfl⟩

/-- Witness for C5 amended: the whois oracle raises for every host, yet the
src/domainStatus.py batch completes with a row per domain. -/
theorem c5_witness :
    (∃ rows prints,
      add_status_to_html pairFeed .whole true envBoom = .ok (rows, prints) ∧
      rows.length = pairFeed.length ∧
      ∀ k : Nat, (rows[k]?).map Row.registrar =
        (pairFeed[k]?).map (fun u =>
          if true then some (get_domain_name_registrar (envBoom.whois u))
          else none)) ∧
    (∀ m : Str, get_domain_name_registrar (.raise m) =
      ("N/A".data, "N/A".data)) :=
  c5_amended_batch_recovers pairFeed .whole true envBoom pairFeed rfl

/-- C6: whenever slicing succeeds, the batch emits exactly one row per
selected domain, numbered 1..n in input order; and the range `[2, 3]` over a
five-line file selects exactly the original lines 2 and 3, re-numbered
1 and 2. -/
theorem c6_report_count_and_numbering (feed : List Str) (pl : ParseLength)
    (reg : Bool) (env : NetEnv) (urls : List Str)
    (hsel : selectUrls feed pl = .ok urls) :
    (∃ rows prints, add_status_to_html feed pl reg env = .ok (rows, prints) ∧
      rows.length = urls.length ∧ prints.length = urls.length ∧
      rows.map Row.nr = List.range' 1 urls.length) ∧
    selectUrls demo5 (.range 2 3) = .ok ["two.com".data, "three.com".data] ∧
    (add_status_to_html demo5 (.range 2 3) false env0).toOption.map
        (fun p => p.1.map (fun row => (row.nr, row.host))) =
      some [(1, "two.com".data), (2, "three.com".data)] := by
  refine ⟨⟨(processUrls feed reg env 1 urls).1,
    (processUrls feed reg env 1 urls).2,
    add_status_ok feed pl reg env urls hsel,
    processUrls_fst_length feed reg env urls 1,
    processUrls_snd_length feed reg env urls 1,
    processUrls_map_nr feed reg env urls 1⟩, by rfl, by rfl⟩

/-- Witness for C6: the `[2, 3]` range over the five-line demo feed. -/
theorem c6_witness :
    ∃ rows prints,
      add_status_to_html demo5 (.range 2 3) false env0 = .ok (rows, prints) ∧
      rows.length = (["two.com".data, "three.com".data] : List Str).length ∧
      prints.length = (["two.com".data, "three.com".data] : List Str).length ∧
      rows.map Row.nr =
        List.range' 1 (["two.com".data, "three.com".data] : List Str).length :=
  (c6_report_count_and_numbering demo5 (.range 2 3) false env0
    ["two.com".data, "three.com".data] rfl).1

/-- C7: `left_strip_url` is total and deterministic; an entry of the form
`http://www.` plus remainder or `https://www.` plus remainder is mapped to
`www.` plus the same remainder (exactly the scheme portion is stripped,
because the character-set strip stops at the first `w`); any entry without
one of the two prefixes is returned unchanged; no lowercasing and no
trimming occur. -/
theorem c7_normalize_total :
    (∀ r : Str, left_strip_url ("http://www.".data ++ r) = "www.".data ++ r) ∧
    (∀ r : Str, left_strip_url ("https://www.".data ++ r) = "www.".data ++ r) ∧
    (∀ e : Str, startsWith e "http://www.".data = false →
      startsWith e "https://www.".data = false → left_strip_url e = e) :=
  ⟨left_strip_url_http, left_strip_url_https, left_strip_url_other⟩

/-- Witness for C7: a scheme-prefixed entry and a bare entry. -/
theorem c7_witness :
    left_strip_url ("http://www.".data ++ "foo.org".data) =
      "www.".data ++ "foo.org".data ∧
    left_strip_url "example.com".data = "example.com".data :=
  ⟨c7_normalize_total.1 "foo.org".data,
   c7_normalize_total.2.2 "example.com".data (by decide) (by decide)⟩

/-- C8 counterexample: normalization does NOT remove the leading `www.`: the
accepted entries `www.example.com` and `http://www.example.com` both yield a
canonical host that still begins with `www.`, refuting the stated invariant
that a CanonicalHost has no leading `www.`. -/
theorem c8_leading_www_retained :
    startsWith (left_strip_url "www.example.com".data) "www.".data = true ∧
    startsWith (left_strip_url "http://www.example.com".data) "www.".data =
      true :=
  ⟨by decide, by decide⟩

/-- C8 amended: for every accepted entry form built from a bare host (no
scheme separator, no leading `www.`), the canonical host contains no scheme
separator `://`, but the `no leading www.` half of the invariant fails: the
`www.`-bearing forms all keep the `www.` prefix, and only the bare form
yields a host without it. -/
theorem c8_amended_invariant (b : Str)
    (hsep : hasSub b "://".data = false)
    (hwww : startsWith b "www.".data = false) :
    (left_strip_url b = b ∧ hasSub (left_strip_url b) "://".data = false ∧
      startsWith (left_strip_url b) "www.".data = false) ∧
    (left_strip_url ("www.".data ++ b) = "www.".data ++ b ∧
      hasSub (left_strip_url ("www.".data ++ b)) "://".data = false ∧
      startsWith (left_strip_url ("www.".data ++ b)) "www.".data = true) ∧
    left_strip_url ("http://www.".data ++ b) = "www.".data ++ b ∧
    hasSub (left_strip_url ("http://www.".data ++ b)) "://".data = false ∧
    left_strip_url ("https://www.".data ++ b) = "www.".data ++ b ∧
    hasSub (left_strip_url ("https://www.".data ++ b)) "://".data = false := by
  have hb1 : startsWith b "http://www.".data = false := by
    cases hc : startsWith b "http://www.".data with
    | false => rfl
    | true =>
        obtain ⟨t, rfl⟩ := (startsWith_iff _ b).mp hc
        rw [hasSub_http_www t] at hsep
        exact absurd hsep (by decide)
  have hb2 : startsWith b "https://www.".data = false := by
    cases hc : startsWith b "https://www.".data with
    | false => rfl
    | true =>
        obtain ⟨t, rfl⟩ := (startsWith_iff _ b).mp hc
        rw [hasSub_https_www t] at hsep
        exact absurd hsep (by decide)
  have hu : left_strip_url b = b := left_strip_url_other b hb1 hb2
  have hw : left_strip_url ("www.".data ++ b) = "www.".data ++ b :=
    left_strip_url_other _ (www_not_http b) (www_not_https b)
  refine ⟨⟨hu, ?_, ?_⟩, ⟨hw, ?_, ?_⟩, left_strip_url_http b, ?_,
    left_strip_url_https b, ?_⟩
  · rw [hu]
    exact hsep
  · rw [hu]
    exact hwww
  · rw [hw, hasSub_www b]
    exact hsep
  · rw [hw]
    exact startsWith_self_append "www.".data b
  · rw [left_strip_url_http b, hasSub_www b]
    exact hsep
  · rw [left_strip_url_https b, hasSub_www b]
    exact hsep

/-- Witness for C8 amended: the bare host `example.com`. -/
theorem c8_witness :
    left_strip_url ("www.".data ++ "example.com".data) =
      "www.".data ++ "example.com".data :=
  (c8_amended_invariant "example.com".data (by decide) (by decide)).2.1.1

/-- C9 counterexample: when the light probe times out, the early `return`
inside the `socket.timeout` handler is executed before the `conn.close()`
call is reached, so the connection opened by the prober is NOT closed on
this exit path. -/
theorem c9_timeout_path_leaves_conn_open :
    (get_status_code "example.com".data envTO).connClosed = false := by rfl

/-- C9 amended: the prober closes the connection it opened on the normal
status path, the 400/403 fallback path and the caught-exception path, but
not on the light-probe timeout path. -/
theorem c9_amended_close_on_non_timeout (host : Str) (env : NetEnv)
    (h : env.head (left_strip_url host) ≠ .timeout) :
    (get_status_code host env).connClosed = true := by
  cases hh : env.head (left_strip_url host) with
  | timeout => exact absurd hh h
  | exn m => rw [get_status_code_exn host env m hh]
  | response st reason =>
      rw [get_status_code_response host env st reason hh]
      by_cases hst : st = 400 ∨ st = 403
      · rw [if_pos hst]
      · rw [if_neg hst]

/-- Witness for C9 amended: an environment answering 200 OK. -/
theorem c9_witness :
    (get_status_code "example.com".data env0).connClosed = true :=
  c9_amended_close_on_non_timeout "example.com".data env0 (by decide)

/-- C10: in file mode the printed progress line carries
`feed_list.index(url) + 1`, the 1-based position of the FIRST occurrence of
the processed url string in the whole input file, while rows are numbered by
processing position; on a feed with the same domain on lines 1 and 3 the
printed line numbers are 1, 2, 1 although the rows are numbered 1, 2, 3. -/
theorem c10_progress_line_first_occurrence (feed : List Str)
    (pl : ParseLength) (reg : Bool) (env : NetEnv) (urls : List Str)
    (hsel : selectUrls feed pl = .ok urls) :
    (∃ rows prints, add_status_to_html feed pl reg env = .ok (rows, prints) ∧
      rows.length = urls.length ∧ prints.length = urls.length ∧
      ∀ k : Nat, (prints[k]?).map PrintLine.line =
        (urls[k]?).map (fun u => pyIndexOf feed u + 1)) ∧
    (add_status_to_html dupFeed .whole false env0).toOption.map
        (fun p => p.2.map PrintLine.line) = some [1, 2, 1] ∧
    (add_status_to_html dupFeed .whole false env0).toOption.map
        (fun p => p.1.map Row.nr) = some [1, 2, 3] := by
  refine ⟨⟨(processUrls feed reg env 1 urls).1,
    (processUrls feed reg env 1 urls).2,
    add_status_ok feed pl reg env urls hsel,
    processUrls_fst_length feed reg env urls 1,
    processUrls_snd_length feed reg env urls 1,
    fun k => processUrls_line feed reg env urls 1 k⟩, by rfl, by rfl⟩

/-- Witness for C10: the duplicated feed processed in whole-file mode. -/
theorem c10_witness :
    ∃ rows prints,
      add_status_to_html dupFeed .whole false env0 = .ok (rows, prints) ∧
      rows.length = dupFeed.length ∧ prints.length = dupFeed.length ∧
      ∀ k : Nat, (prints[k]?).map PrintLine.line =
        (dupFeed[k]?).map (fun u => pyIndexOf dupFeed u + 1) :=
  (c10_progress_line_first_occurrence dupFeed .whole false env0 dupFeed
    rfl).1
